import Mathlib

/-!
Verification of the research-document generation service
(`app/models.py`, `app/generator.py`, `app/main.py`).

The development shallowly embeds the three source files:

* the pydantic request model (`DocumentGenerationRequest` and friends,
  together with a small model of how pydantic decodes a JSON payload
  field-by-field: a field is absent, explicitly `null`, or carries a value);
* the document assembler `create_research_document`, modelled as a pure
  function from the validated request to the sequence of document blocks
  (headings, paragraphs, page break) plus the configured default style and
  the computed file name / output path;
* the `/download/{file_name}` endpoint's path computation
  (`os.path.join(OUTPUT_DIR, file_name)` followed by an existence check).

Python strings are Lean `String`s.  The Python string operations the code
uses (`strip`, `split`, `replace`, slicing) are modelled by explicit
structurally-recursive functions over the string's character list, so that
every definition evaluates by kernel reduction on concrete inputs.
Dictionary values (`Dict[str, Any]`) are modelled by `PyVal` (strings and
rational numbers, enough for the formatting options the assembler reads
or defaults to).
-/

/-- Python `str.strip()`: remove leading and trailing whitespace
(modelled for the ASCII whitespace characters, which is what
`Char.isWhitespace` tests and what the service's content exercises). -/
def pyStrip (s : String) : String :=
  ⟨((s.data.dropWhile Char.isWhitespace).reverse.dropWhile Char.isWhitespace).reverse⟩

/-- Python `str.split(sep)` for a one-character separator: split at every
occurrence of the separator, keeping empty segments (`"".split(c) == [""]`,
`"a\n\nb".split('\n') == ["a", "", "b"]`). -/
def pySplitOn (sep : Char) (s : String) : List String :=
  (s.data.splitOnP fun c => c == sep).map fun cs => ⟨cs⟩

/-- Python `str.replace(' ', '_')`: every space becomes an underscore
(single-character find/replace is a character map). -/
def underscored (s : String) : String :=
  ⟨s.data.map fun c => if c = ' ' then '_' else c⟩

/-- Python slicing `s[:n]`: the first `n` characters (all of `s` when it
is shorter). -/
def pySliceTo (s : String) (n : Nat) : String :=
  ⟨s.data.take n⟩

/-- A Python value as stored in the `formatting_options` dictionary
(`Dict[str, Any]`); strings and numbers cover every value the assembler
reads or defaults to (`"Times New Roman"`, `12`, `1.5`). -/
inductive PyVal where
  | str (s : String)
  | num (q : Rat)
deriving DecidableEq, Repr

/-- `ChapterData` from `app/models.py`: `type`, `title`, `content`,
all required strings. -/
structure ChapterData where
  type : String
  title : String
  content : String
deriving DecidableEq, Repr

/-- `ReferenceData` from `app/models.py`: `citation_apa: Optional[str] = None`. -/
structure ReferenceData where
  citation_apa : Option String
deriving DecidableEq, Repr

/-- The validated `DocumentGenerationRequest` from `app/models.py`.
`Optional[...]` pydantic fields hold `Option` values: an explicit JSON
`null` decodes to `none`, while an absent field takes the declared default
(see `decodeRequest`).  The `project_id` is held in its string form (the
assembler only ever interpolates it into the file name). -/
structure DocumentGenerationRequest where
  project_id : String
  research_title : String
  student_name : Option String
  university_name : Option String
  specialization : Option String
  chapters : List ChapterData
  references : Option (List ReferenceData)
  formatting_options : Option (List (String × PyVal))
deriving DecidableEq, Repr

/-- One JSON field of the incoming payload: absent from the object,
explicitly `null`, or present with a value.  pydantic distinguishes all
three for `Optional` fields with defaults. -/
inductive JsonField (α : Type) where
  | absent
  | null
  | value (v : α)
deriving DecidableEq, Repr

/-- The raw JSON payload of a generation request, field by field.
Elements of `chapters` / `references` are taken already structured: the
claims under study do not exercise their element-level validation. -/
structure RequestPayload where
  project_id : JsonField String
  research_title : JsonField String
  student_name : JsonField String
  university_name : JsonField String
  specialization : JsonField String
  chapters : JsonField (List ChapterData)
  references : JsonField (List ReferenceData)
  formatting_options : JsonField (List (String × PyVal))
deriving DecidableEq, Repr

/-- Hexadecimal digit (either case), as accepted by `uuid.UUID`. -/
def isHexDigit (c : Char) : Bool :=
  c.isDigit || (('a' ≤ c && c ≤ 'f') || ('A' ≤ c && c ≤ 'F'))

/-- The canonical 8-4-4-4-12 hyphenated UUID form.  `uuid.UUID` accepts a
few more spellings and normalizes; the claims only exercise canonical
lowercase ids, for which parsing is the identity. -/
def isCanonicalUUID (s : String) : Bool :=
  s.data.length == 36 &&
    (List.range 36).all fun i =>
      let c := s.data.getD i ' '
      if i == 8 || i == 13 || i == 18 || i == 23 then c == '-' else isHexDigit c

/-- pydantic decoding of a required field (`field: T` with no default):
absent and `null` are validation errors. -/
def decodeRequired {α : Type} (fieldName : String) : JsonField α → Except String α
  | .value v => .ok v
  | .null => .error (fieldName ++ ": none is not an allowed value")
  | .absent => .error (fieldName ++ ": field required")

/-- pydantic decoding of `field: Optional[T] = default`: an absent field
takes the default, an explicit `null` yields `None`, a value is kept. -/
def decodeOptionalWithDefault {α : Type} (dflt : α) : JsonField α → Option α
  | .absent => some dflt
  | .null => none
  | .value v => some v

/-- pydantic decoding of `project_id: uuid.UUID`: required, and the string
must parse as a UUID. -/
def decodeProjectId : JsonField String → Except String String
  | .value s =>
      if isCanonicalUUID s then .ok s
      else .error "project_id: value is not a valid uuid"
  | .null => .error "project_id: none is not an allowed value"
  | .absent => .error "project_id: field required"

/-- Decoding a payload into a `DocumentGenerationRequest`, following the
field declarations of `app/models.py` (pydantic reports the first failing
required field here; error aggregation is not modelled, only success
versus failure and the decoded value). -/
def decodeRequest (p : RequestPayload) : Except String DocumentGenerationRequest :=
  match decodeProjectId p.project_id with
  | .error e => .error e
  | .ok pid =>
    match decodeRequired "research_title" p.research_title with
    | .error e => .error e
    | .ok title =>
      match decodeRequired "chapters" p.chapters with
      | .error e => .error e
      | .ok chs =>
          .ok { project_id := pid
                research_title := title
                student_name := decodeOptionalWithDefault "A. Student" p.student_name
                university_name := decodeOptionalWithDefault "University of Example" p.university_name
                specialization := decodeOptionalWithDefault "Field of Study" p.specialization
                chapters := chs
                references := decodeOptionalWithDefault [] p.references
                formatting_options := decodeOptionalWithDefault [] p.formatting_options }

/-- One block of the assembled document: a heading (with level and
alignment), a paragraph (text, centered flag, named style, left indent and
first-line indent in inches), or a hard page break. -/
inductive Block where
  | heading (text : String) (level : Nat) (centered : Bool)
  | para (text : String) (centered : Bool) (styleName : Option String)
      (leftIndentInches : Option Rat) (firstLineIndentInches : Option Rat)
  | pageBreak
deriving DecidableEq, Repr

/-- `doc.add_paragraph(text)`: default style, left aligned, no explicit
indentation.  `doc.add_paragraph()` is `plainPara ""`. -/
def plainPara (text : String) : Block :=
  .para text false none none none

/-- Python `f"...{x}..."` interpolation of an `Optional[str]`: `None`
renders as the four characters `None`. -/
def pyStrOfOpt : Option String → String
  | some s => s
  | none => "None"

/-- The document's configured `Normal` style after the assembler's style
setup: font name, font size in points (`Pt(...)`), line-spacing
multiplier.  The values come straight out of `formatting_options.get`,
untyped, hence `PyVal`. -/
structure NormalStyle where
  fontName : PyVal
  fontSizePt : PyVal
  lineSpacing : PyVal
deriving DecidableEq, Repr

/-- Lookup in our association-list model of a Python dict: the value
stored under `k` (keys of a Python dict are unique, so the first hit is
the value). -/
def dictFind (d : List (String × PyVal)) (k : String) : Option PyVal :=
  (d.find? fun kv => kv.1 == k).map fun kv => kv.2

/-- Python `d.get(k, default)`. -/
def dictGet (d : List (String × PyVal)) (k : String) (dflt : PyVal) : PyVal :=
  (dictFind d k).getD dflt

/-- The style-setup section of `create_research_document`:
`data.formatting_options.get("font_family", 'Times New Roman')` and the
two numeric options.  When `formatting_options` is an explicit `None`,
the very first `.get` attribute lookup raises `AttributeError`, which the
function's `except` clause re-raises. -/
def setupStyle : Option (List (String × PyVal)) → Except String NormalStyle
  | none => .error "AttributeError: 'NoneType' object has no attribute 'get'"
  | some fo =>
      .ok { fontName := dictGet fo "font_family" (.str "Times New Roman")
            fontSizePt := dictGet fo "font_size_main" (.num 12)
            lineSpacing := dictGet fo "line_spacing" (.num (3 / 2)) }

/-- The title-page section of `create_research_document`: centered level-0
title heading, one empty spacer paragraph, three centered author lines,
and a page break. -/
def titleBlock (data : DocumentGenerationRequest) : List Block :=
  [ .heading data.research_title 0 true,
    plainPara "",
    .para ("By: " ++ pyStrOfOpt data.student_name) true none none none,
    .para ("Specialization: " ++ pyStrOfOpt data.specialization) true none none none,
    .para ("Institution: " ++ pyStrOfOpt data.university_name) true none none none,
    .pageBreak ]

/-- The per-chapter loop body: a level-1 heading with the chapter title,
then `content.split('\n')`, each segment added as a paragraph of its
stripped text when `para_text.strip()` is truthy, then one empty spacer
paragraph. -/
def chapterBlocks (chapter : ChapterData) : List Block :=
  Block.heading chapter.title 1 false ::
    ((pySplitOn '\n' chapter.content).filterMap fun para_text =>
      if pyStrip para_text ≠ "" then some (plainPara (pyStrip para_text)) else none)
    ++ [plainPara ""]

/-- One reference of the references loop: with a citation, a
`List Paragraph` styled paragraph carrying exactly the citation text, left
indent `0.0` inches and first-line indent `-0.5` inches (hanging indent);
without one, the fixed placeholder paragraph in the same list style. -/
def referenceBlock (ref : ReferenceData) : Block :=
  match ref.citation_apa with
  | some citation =>
      .para citation false (some "List Paragraph") (some 0) (some (-(1 / 2 : Rat)))
  | none =>
      .para "Reference data missing for a source." false (some "List Paragraph") none none

/-- The references section: guarded by Python truthiness of
`data.references` (`None` and the empty list are both falsy), a level-1
`References` heading followed by one block per reference in input order. -/
def referenceBlocks : Option (List ReferenceData) → List Block
  | none => []
  | some refs =>
      if refs.isEmpty then []
      else Block.heading "References" 1 false :: refs.map referenceBlock

/-- The computed output file name:
`f"project_{data.project_id}_{data.research_title.replace(' ', '_')[:30]}.docx"`. -/
def fileName (data : DocumentGenerationRequest) : String :=
  "project_" ++ data.project_id ++ "_" ++ pySliceTo (underscored data.research_title) 30 ++ ".docx"

/-- All blocks of the assembled document, in emission order. -/
def documentBlocks (data : DocumentGenerationRequest) : List Block :=
  titleBlock data ++ (data.chapters.map chapterBlocks).flatten ++ referenceBlocks data.references

/-- The result of a successful generation: the document content (blocks
and configured style) and the returned `(file_name, full_output_path)`. -/
structure GenResult where
  style : NormalStyle
  blocks : List Block
  file_name : String
  full_path : String
deriving DecidableEq, Repr

/-- `create_research_document(data, output_path)` from `app/generator.py`:
style setup (which raises when `formatting_options` is `None`), document
assembly, file-name computation, and
`full_output_path = f"{output_path}/{file_name}"`. -/
def create_research_document (data : DocumentGenerationRequest) (output_path : String) :
    Except String GenResult :=
  match setupStyle data.formatting_options with
  | .error e => .error e
  | .ok style =>
      let file_name := fileName data
      .ok { style := style
            blocks := documentBlocks data
            file_name := file_name
            full_path := output_path ++ "/" ++ file_name }

/-- POSIX `os.path.join(a, b)` for the two-argument call in the download
endpoint: an absolute second component discards the first; otherwise the
parts are joined, inserting a `/` unless `a` already ends with one (or is
empty). -/
def ospath_join (a b : String) : String :=
  if b.data.head? = some '/' then b
  else if a.data = [] ∨ a.data.getLast? = some '/' then a ++ b
  else a ++ "/" ++ b

/-- The default output directory of `app/main.py`:
`os.getenv("DOCGEN_OUTPUT_DIR", "./generated_documents")` fallback. -/
def OUTPUT_DIR : String := "./generated_documents"

/-- The path handling of `download_generated_document` in `app/main.py`:
`file_path = os.path.join(OUTPUT_DIR, file_name)`, serve that path when
`os.path.exists(file_path)`, else a 404.  `fs` abstracts which paths exist
on disk.  The joined path is used as-is — no check that it stays inside
the output directory. -/
def download_generated_document (fs : String → Bool) (file_name : String) : Except Nat String :=
  let file_path := ospath_join OUTPUT_DIR file_name
  if fs file_path then .ok file_path else .error 404

/-- One step of lexical path normalization: skip empty components and
`.`, let `..` cancel the preceding component (or survive at the front of
a relative path), append anything else. -/
def resolveStep (acc : List String) (c : String) : List String :=
  if c = "" ∨ c = "." then acc
  else if c = ".." then
    match acc with
    | [] => [".."]
    | _ => if acc.getLast? = some ".." then acc ++ [".."] else acc.dropLast
  else acc ++ [c]

/-- Lexical normalization of a POSIX path: absoluteness flag plus the
resolved component list. -/
def normPath (p : String) : Bool × List String :=
  (p.data.head? == some '/', (pySplitOn '/' p).foldl resolveStep [])

/-- Whether path `p` stays inside directory `dir`, judged on normalized
paths: same absoluteness, and `dir`'s components are a prefix of `p`'s. -/
def staysInsideDir (dir p : String) : Bool :=
  ((normPath p).1 == (normPath dir).1) && (normPath dir).2.isPrefixOf (normPath p).2

deriving instance DecidableEq for Except

/-! ## Theorems -/

theorem filterMap_strip_eq (l : List String) :
    (l.filterMap fun s => if pyStrip s ≠ "" then some (plainPara (pyStrip s)) else none) =
      ((l.map pyStrip).filter fun s => s ≠ "").map plainPara := by
  induction l with
  | nil => rfl
  | cons a l ih =>
    simp only [ne_eq, ite_not, decide_not] at ih ⊢
    by_cases h : pyStrip a = "" <;>
      simp [List.filterMap_cons, List.filter_cons, h, ih]

/-- C1: for every chapter the assembler emits a level-1 heading with the
chapter's title, splits the content on the newline character, emits each
segment that is non-empty after stripping as its own paragraph containing
the stripped text, silently drops blank segments, and emits exactly one
blank spacer paragraph after the chapter's segments; for content
`"A\n\nB\n   \nC"` exactly the three paragraphs "A", "B", "C" are
emitted, in order, before the spacer. -/
theorem chapter_content_paragraphs :
    (∀ chapter : ChapterData,
      chapterBlocks chapter =
        Block.heading chapter.title 1 false ::
          ((((pySplitOn '\n' chapter.content).map pyStrip).filter fun s => s ≠ "").map plainPara
            ++ [plainPara ""]))
    ∧ ∀ ty ti : String,
        chapterBlocks ⟨ty, ti, "A\n\nB\n   \nC"⟩ =
          [Block.heading ti 1 false, plainPara "A", plainPara "B", plainPara "C", plainPara ""] := by
  constructor
  · intro chapter
    unfold chapterBlocks
    rw [List.cons_append, filterMap_strip_eq]
  · intro ty ti
    unfold chapterBlocks
    rw [List.cons_append]
    rw [show ({ type := ty, title := ti, content := "A\n\nB\n   \nC" } : ChapterData).content =
          "A\n\nB\n   \nC" from rfl]
    exact congrArg (List.cons (Block.heading ti 1 false)) (by decide)

/-- C2: the output file name is
`"project_" ++ project_id ++ "_" ++ (title with spaces replaced by
underscores, truncated to its first 30 characters) ++ ".docx"`; the
computation is a deterministic function of project id and title, and the
truncated title part has exactly 30 characters whenever the
underscore-substituted title is at least that long. -/
theorem file_name_computation :
    (∀ d1 d2 : DocumentGenerationRequest,
        d1.project_id = d2.project_id → d1.research_title = d2.research_title →
        fileName d1 = fileName d2)
    ∧ (∀ d : DocumentGenerationRequest,
        fileName d =
          "project_" ++ d.project_id ++ "_" ++ pySliceTo (underscored d.research_title) 30 ++ ".docx")
    ∧ ∀ d : DocumentGenerationRequest,
        30 ≤ (underscored d.research_title).length →
        (pySliceTo (underscored d.research_title) 30).length = 30 := by
  refine ⟨?_, fun d => rfl, ?_⟩
  · intro d1 d2 h1 h2
    unfold fileName
    rw [h1, h2]
  · intro d h
    have h' : 30 ≤ (underscored d.research_title).data.length := h
    show ((underscored d.research_title).data.take 30).length = 30
    rw [List.length_take]
    omega

/-- The spec's scenario request: project id
`11111111-1111-1111-1111-111111111111`, title `"My Thesis"`, zero
chapters, zero references. -/
def myThesisRequest : DocumentGenerationRequest :=
  { project_id := "11111111-1111-1111-1111-111111111111"
    research_title := "My Thesis"
    student_name := some "A. Student"
    university_name := some "University of Example"
    specialization := some "Field of Study"
    chapters := []
    references := some []
    formatting_options := some [] }

/-- A request differing from `myThesisRequest` only in author metadata:
same project id and title, hence the same computed file name. -/
def myThesisRequestOther : DocumentGenerationRequest :=
  { myThesisRequest with
    student_name := some "B. Student"
    research_title := "A very long research title about everything" }

/-- A long-titled request exercising the 30-character truncation. -/
def longTitleRequest : DocumentGenerationRequest :=
  { myThesisRequest with research_title := "A very long research title about everything" }

theorem file_name_computation_witness :
    fileName longTitleRequest = fileName { myThesisRequestOther with student_name := some "C. Student" }
    ∧ (pySliceTo (underscored longTitleRequest.research_title) 30).length = 30
    ∧ fileName myThesisRequest =
        "project_11111111-1111-1111-1111-111111111111_My_Thesis.docx" :=
  ⟨file_name_computation.1 longTitleRequest _ rfl rfl,
   file_name_computation.2.2 longTitleRequest (by decide),
   by decide⟩

/-- A payload whose `research_title` is the empty string and whose other
fields are unremarkable (valid project id, empty chapter list, everything
optional omitted). -/
def emptyTitlePayload : RequestPayload :=
  { project_id := .value "11111111-1111-1111-1111-111111111111"
    research_title := .value ""
    student_name := .absent
    university_name := .absent
    specialization := .absent
    chapters := .value []
    references := .absent
    formatting_options := .absent }

/-- The request `emptyTitlePayload` decodes to. -/
def emptyTitleRequest : DocumentGenerationRequest :=
  { project_id := "11111111-1111-1111-1111-111111111111"
    research_title := ""
    student_name := some "A. Student"
    university_name := some "University of Example"
    specialization := some "Field of Study"
    chapters := []
    references := some []
    formatting_options := some [] }

/-- C3 counterexample: a request with `research_title` equal to the empty
string passes validation — decoding succeeds, no error is surfaced.  The
model declares `research_title: str` with no minimum length, so the empty
string is a perfectly valid value. -/
theorem empty_title_accepted : decodeRequest emptyTitlePayload = .ok emptyTitleRequest := by
  decide

/-- C3 (amended): `research_title` is required — decoding fails before any
assembly when the field is absent or explicitly null — but an empty string
is accepted: validation does not reject it. -/
theorem research_title_required :
    (∀ p : RequestPayload, p.research_title = .absent → ∀ r, decodeRequest p ≠ .ok r)
    ∧ (∀ p : RequestPayload, p.research_title = .null → ∀ r, decodeRequest p ≠ .ok r)
    ∧ (decodeRequest emptyTitlePayload).isOk = true := by
  refine ⟨?_, ?_, by decide⟩ <;>
  · intro p hp r h
    unfold decodeRequest at h
    split at h
    · exact Except.noConfusion h
    · rw [hp] at h
      exact Except.noConfusion h

theorem research_title_required_witness :
    decodeRequest { emptyTitlePayload with research_title := .absent } ≠ .ok emptyTitleRequest
    ∧ decodeRequest { emptyTitlePayload with research_title := .null } ≠ .ok emptyTitleRequest :=
  ⟨research_title_required.1 { emptyTitlePayload with research_title := .absent } rfl
      emptyTitleRequest,
   research_title_required.2.1 { emptyTitlePayload with research_title := .null } rfl
      emptyTitleRequest⟩

/-- A request with no chapters but one (cited) reference. -/
def emptyChaptersRefRequest : DocumentGenerationRequest :=
  { myThesisRequest with references := some [⟨some "Doe, J. (2020)."⟩] }

/-- C4 counterexample: for a request with an empty chapter sequence but a
non-empty reference sequence, the assembled document is not only the
title block — a `References` heading (and the reference paragraph) follow
it. -/
theorem title_only_cex :
    documentBlocks emptyChaptersRefRequest ≠ titleBlock emptyChaptersRefRequest
    ∧ Block.heading "References" 1 false ∈ documentBlocks emptyChaptersRefRequest := by
  constructor <;> decide

/-- C4 (amended): for every request whose chapter sequence is empty and
whose reference sequence is empty (or absent), the assembled document is
exactly the title block: centered title heading, one spacer paragraph,
the three centered author lines, and a page break — nothing else. -/
theorem title_only_document :
    ∀ d : DocumentGenerationRequest, d.chapters = [] →
      (d.references = none ∨ d.references = some []) →
      documentBlocks d =
        [ .heading d.research_title 0 true,
          plainPara "",
          .para ("By: " ++ pyStrOfOpt d.student_name) true none none none,
          .para ("Specialization: " ++ pyStrOfOpt d.specialization) true none none none,
          .para ("Institution: " ++ pyStrOfOpt d.university_name) true none none none,
          .pageBreak ] := by
  intro d hch href
  unfold documentBlocks titleBlock
  rw [hch]
  rcases href with h | h <;> rw [h] <;> rfl

theorem title_only_document_witness :
    documentBlocks myThesisRequest =
      [ .heading "My Thesis" 0 true,
        plainPara "",
        .para "By: A. Student" true none none none,
        .para "Specialization: Field of Study" true none none none,
        .para "Institution: University of Example" true none none none,
        .pageBreak ] :=
  title_only_document myThesisRequest rfl (Or.inr rfl)

/-- C5: a reference without a citation string yields a paragraph whose
text is exactly "Reference data missing for a source."; a reference with
a citation yields a paragraph whose body is exactly the citation text,
in `List Paragraph` style with zero left indent and a negative (hanging)
first-line indent of half an inch. -/
theorem reference_paragraph_rendering :
    (∀ ref : ReferenceData, ref.citation_apa = none →
        referenceBlock ref =
          .para "Reference data missing for a source." false (some "List Paragraph") none none)
    ∧ ∀ (ref : ReferenceData) (c : String), ref.citation_apa = some c →
        referenceBlock ref =
            .para c false (some "List Paragraph") (some 0) (some (-(1 / 2 : Rat)))
          ∧ (-(1 / 2 : Rat)) < 0 := by
  constructor
  · intro ref h
    unfold referenceBlock
    rw [h]
  · intro ref c h
    refine ⟨?_, by norm_num⟩
    unfold referenceBlock
    rw [h]

theorem reference_paragraph_rendering_witness :
    referenceBlock ⟨none⟩ =
        .para "Reference data missing for a source." false (some "List Paragraph") none none
    ∧ referenceBlock ⟨some "Doe, J. (2020)."⟩ =
        .para "Doe, J. (2020)." false (some "List Paragraph") (some 0) (some (-(1 / 2 : Rat))) :=
  ⟨reference_paragraph_rendering.1 ⟨none⟩ rfl,
   (reference_paragraph_rendering.2 ⟨some "Doe, J. (2020)."⟩ "Doe, J. (2020)." rfl).1⟩

/-- C6: the references section opens with the level-1 `References`
heading exactly when the reference sequence is present and non-empty
(`None` and `[]` both produce no heading and no blocks at all), and the
reference paragraphs follow in input order — one block per input
reference via `referenceBlock`, with no sorting and no deduplication. -/
theorem references_section_heading :
    (∀ refs : List ReferenceData, refs ≠ [] →
        referenceBlocks (some refs) =
          Block.heading "References" 1 false :: refs.map referenceBlock)
    ∧ referenceBlocks none = []
    ∧ referenceBlocks (some []) = [] := by
  refine ⟨?_, rfl, rfl⟩
  intro refs h
  show (if refs.isEmpty then [] else Block.heading "References" 1 false :: refs.map referenceBlock)
      = Block.heading "References" 1 false :: refs.map referenceBlock
  rw [if_neg (by simpa [List.isEmpty_iff] using h)]

theorem references_section_heading_witness :
    referenceBlocks (some [⟨some "Zeta, Z. (2021)."⟩, ⟨some "Doe, J. (2020)."⟩,
        ⟨some "Doe, J. (2020)."⟩, ⟨none⟩]) =
      [Block.heading "References" 1 false,
       referenceBlock ⟨some "Zeta, Z. (2021)."⟩,
       referenceBlock ⟨some "Doe, J. (2020)."⟩,
       referenceBlock ⟨some "Doe, J. (2020)."⟩,
       referenceBlock ⟨none⟩] :=
  references_section_heading.1
    [⟨some "Zeta, Z. (2021)."⟩, ⟨some "Doe, J. (2020)."⟩, ⟨some "Doe, J. (2020)."⟩, ⟨none⟩]
    (by decide)

/-- C7: a payload with `formatting_options` omitted decodes to the very
same request as the same payload with `formatting_options` supplied as the
empty map; the empty map configures the literal defaults — font
"Times New Roman", size 12 points, line spacing 1.5 — and a key other
than `font_family`, `font_size_main`, `line_spacing` has no effect on the
configured style. -/
theorem formatting_defaults :
    (∀ p : RequestPayload, p.formatting_options = .absent →
        decodeRequest p = decodeRequest { p with formatting_options := .value [] })
    ∧ setupStyle (some []) =
        .ok { fontName := .str "Times New Roman", fontSizePt := .num 12,
              lineSpacing := .num (3 / 2) }
    ∧ ∀ (fo : List (String × PyVal)) (k : String) (v : PyVal),
        k ≠ "font_family" → k ≠ "font_size_main" → k ≠ "line_spacing" →
        setupStyle (some ((k, v) :: fo)) = setupStyle (some fo) := by
  refine ⟨?_, rfl, ?_⟩
  · intro p hp
    unfold decodeRequest
    rw [hp]
    rfl
  · intro fo k v h1 h2 h3
    have e1 : (k == "font_family") = false := by simpa using h1
    have e2 : (k == "font_size_main") = false := by simpa using h2
    have e3 : (k == "line_spacing") = false := by simpa using h3
    simp [setupStyle, dictGet, dictFind, List.find?_cons, e1, e2, e3]

/-- The spec scenario payload with `formatting_options` omitted. -/
def noFormattingPayload : RequestPayload :=
  { project_id := .value "11111111-1111-1111-1111-111111111111"
    research_title := .value "My Thesis"
    student_name := .absent
    university_name := .absent
    specialization := .absent
    chapters := .value []
    references := .absent
    formatting_options := .absent }

theorem formatting_defaults_witness :
    decodeRequest noFormattingPayload =
        decodeRequest { noFormattingPayload with formatting_options := .value [] }
    ∧ setupStyle (some [("citation_style", .str "APA")]) = setupStyle (some []) :=
  ⟨formatting_defaults.1 noFormattingPayload rfl,
   formatting_defaults.2.2 [] "citation_style" (.str "APA")
     (by decide) (by decide) (by decide)⟩

/-- C8: when `formatting_options` is an explicit `None` (not omitted),
`create_research_document` fails — the `.get` attribute lookup on `None`
raises and the whole generation aborts; with the empty map (the value an
omitted field decodes to) generation succeeds with the literal default
style.  The omitted-equals-empty-map equivalence does not extend to an
explicit null. -/
theorem formatting_options_null_fails :
    (∀ (d : DocumentGenerationRequest) (out : String), d.formatting_options = none →
        create_research_document d out =
          .error "AttributeError: 'NoneType' object has no attribute 'get'")
    ∧ ∀ (d : DocumentGenerationRequest) (out : String), d.formatting_options = some [] →
        create_research_document d out =
          .ok { style := { fontName := .str "Times New Roman", fontSizePt := .num 12,
                           lineSpacing := .num (3 / 2) }
                blocks := documentBlocks d
                file_name := fileName d
                full_path := out ++ "/" ++ fileName d } := by
  constructor <;>
  · intro d out h
    unfold create_research_document
    rw [h]
    rfl

/-- `myThesisRequest` with `formatting_options` explicitly null. -/
def nullFormattingRequest : DocumentGenerationRequest :=
  { myThesisRequest with formatting_options := none }

theorem formatting_options_null_fails_witness :
    create_research_document nullFormattingRequest "./generated_documents" =
        .error "AttributeError: 'NoneType' object has no attribute 'get'"
    ∧ create_research_document myThesisRequest "./generated_documents" =
        .ok { style := { fontName := .str "Times New Roman", fontSizePt := .num 12,
                         lineSpacing := .num (3 / 2) }
              blocks := documentBlocks myThesisRequest
              file_name := fileName myThesisRequest
              full_path := "./generated_documents" ++ "/" ++ fileName myThesisRequest } :=
  ⟨formatting_options_null_fails.1 nullFormattingRequest "./generated_documents" rfl,
   formatting_options_null_fails.2 myThesisRequest "./generated_documents" rfl⟩

/-- C9: an explicit null for `student_name`, `university_name` or
`specialization` decodes to `None` — the placeholder default is not
applied — and the title block then renders the literal texts `By: None`,
`Institution: None`, `Specialization: None`; the placeholders are used
exactly when the field is absent from the payload. -/
theorem null_author_fields :
    (∀ (p : RequestPayload) (r : DocumentGenerationRequest), decodeRequest p = .ok r →
        (p.student_name = .null → r.student_name = none)
        ∧ (p.university_name = .null → r.university_name = none)
        ∧ (p.specialization = .null → r.specialization = none)
        ∧ (p.student_name = .absent → r.student_name = some "A. Student")
        ∧ (p.university_name = .absent → r.university_name = some "University of Example")
        ∧ (p.specialization = .absent → r.specialization = some "Field of Study"))
    ∧ ∀ d : DocumentGenerationRequest,
        (d.student_name = none →
          (titleBlock d)[2]? = some (.para "By: None" true none none none))
        ∧ (d.university_name = none →
          (titleBlock d)[4]? = some (.para "Institution: None" true none none none))
        ∧ (d.specialization = none →
          (titleBlock d)[3]? = some (.para "Specialization: None" true none none none)) := by
  constructor
  · intro p r h
    unfold decodeRequest at h
    split at h
    · exact Except.noConfusion h
    · split at h
      · exact Except.noConfusion h
      · split at h
        · exact Except.noConfusion h
        · injection h with h
          subst h
          refine ⟨fun hx => ?_, fun hx => ?_, fun hx => ?_,
                  fun hx => ?_, fun hx => ?_, fun hx => ?_⟩ <;> (rw [hx] ; rfl)
  · intro d
    refine ⟨fun h => ?_, fun h => ?_, fun h => ?_⟩ <;>
    · unfold titleBlock
      rw [h]
      rfl

/-- A payload supplying explicit nulls for the three author fields. -/
def nullAuthorPayload : RequestPayload :=
  { project_id := .value "11111111-1111-1111-1111-111111111111"
    research_title := .value "My Thesis"
    student_name := .null
    university_name := .null
    specialization := .null
    chapters := .value []
    references := .absent
    formatting_options := .absent }

/-- The request `nullAuthorPayload` decodes to. -/
def nullAuthorRequest : DocumentGenerationRequest :=
  { project_id := "11111111-1111-1111-1111-111111111111"
    research_title := "My Thesis"
    student_name := none
    university_name := none
    specialization := none
    chapters := []
    references := some []
    formatting_options := some [] }

theorem null_author_fields_witness :
    nullAuthorRequest.student_name = none
    ∧ (titleBlock nullAuthorRequest)[2]? = some (.para "By: None" true none none none)
    ∧ (titleBlock nullAuthorRequest)[4]? = some (.para "Institution: None" true none none none)
    ∧ (titleBlock nullAuthorRequest)[3]? =
        some (.para "Specialization: None" true none none none) :=
  ⟨(null_author_fields.1 nullAuthorPayload nullAuthorRequest (by decide)).1 rfl,
   (null_author_fields.2 nullAuthorRequest).1 rfl,
   (null_author_fields.2 nullAuthorRequest).2.1 rfl,
   (null_author_fields.2 nullAuthorRequest).2.2 rfl⟩

/-- C10: the download operation computes the served path as the plain
`os.path.join` of the output directory with the caller-supplied file name
and never checks containment: the name `".."` joins to
`"./generated_documents/.."`, which normalizes outside the output
directory, and an absolute name such as `"/etc/passwd"` makes the join
discard the output directory entirely, so the existence check and the
returned file target that outside path (here witnessed with a filesystem
oracle on which every path exists). -/
theorem download_path_no_containment :
    (∀ fn : String,
        download_generated_document (fun _ => true) fn = .ok (ospath_join OUTPUT_DIR fn))
    ∧ ospath_join OUTPUT_DIR ".." = "./generated_documents/.."
    ∧ staysInsideDir OUTPUT_DIR (ospath_join OUTPUT_DIR "..") = false
    ∧ ospath_join OUTPUT_DIR "/etc/passwd" = "/etc/passwd"
    ∧ staysInsideDir OUTPUT_DIR (ospath_join OUTPUT_DIR "/etc/passwd") = false
    ∧ download_generated_document (fun _ => true) "/etc/passwd" = .ok "/etc/passwd" :=
  ⟨fun fn => rfl, by decide, by decide, by decide, by decide, by decide⟩
